import Mathlib

/-!
Verification of the `bb_autofeeder` irrigation controller
(`src/ESP32/pump_control.obj/pump_control.obj.ino`) against its
natural-language specification.

The sketch is shallowly embedded: machine integers become `Nat`/`Int` with
explicit `% 2^w` where the C++ conversion or arithmetic can wrap
(`uint16_t` assignments, `uint32_t` accumulation), the global mutable
state becomes an explicit record `CState`, and the externally observable
actions (opening/closing the Preferences store, PWM writes, blocking
delays, serial prints) become an explicit event trace so that scoping and
timing properties can be stated.
-/

namespace PumpControl

/-- Modulus of `uint16_t` arithmetic. -/
def uint16Mod : Nat := 65536

/-- Modulus of `uint32_t` arithmetic. -/
def uint32Mod : Nat := 4294967296

/-- PWM duty value the sketch drives the pump with (`const int dutyCycle = 125`). -/
def dutyCycle : Nat := 125

/-! ## Sensor filter (`getSmoothedTouch`, lines 39-46)

The raw sensor is modelled as a function `touch : Nat → Nat` giving the
value `touchRead` returns at the i-th call; `touchRead` yields a
`uint16_t`, so faithful inputs satisfy `touch i < uint16Mod`.
-/

/-- Accumulator of the sampling loop: `sum` is a `uint32_t`, so every
addition reduces modulo `2^32` (`sum += touchRead(touchPin)`). -/
def touchSum (touch : Nat → Nat) : Nat → Nat
  | 0 => 0
  | n + 1 => (touchSum touch n + touch n) % uint32Mod

/-- Translation of `getSmoothedTouch`: take `samples` readings, sum them in a
`uint32_t`, return `sum / samples` converted to the `uint16_t` return type
(hence the outer `% uint16Mod`). `samples` is a `uint16_t` parameter. -/
def getSmoothedTouch (touch : Nat → Nat) (samples : Nat) : Nat :=
  (touchSum touch samples / samples) % uint16Mod

/-- Divisor of the final division in `getSmoothedTouch` (`sum / samples`). -/
def smoothDivisor (samples : Nat) : Nat := samples

/-- Value range of the `uint16_t` `samples` parameter of `getSmoothedTouch`. -/
def samplesParamValid (samples : Nat) : Prop := samples < uint16Mod

instance (samples : Nat) : Decidable (samplesParamValid samples) := by
  unfold samplesParamValid; infer_instance

/-- The sampling loop computes the exact mathematical sum, bounded by
`n * 65535`, as long as each raw reading fits in 16 bits and at most
`65535` samples are taken (the `uint16_t` loop bound): the `uint32_t`
accumulator never wraps. -/
theorem touchSum_spec (touch : Nat → Nat) (hb : ∀ i, touch i < uint16Mod)
    (n : Nat) (hn : n ≤ 65535) :
    touchSum touch n = (∑ i in Finset.range n, touch i) ∧
      touchSum touch n ≤ n * 65535 := by
  induction n with
  | zero => simp [touchSum]
  | succ m ih =>
    obtain ⟨ihEq, ihLe⟩ := ih (Nat.le_of_succ_le hn)
    have hm : touch m ≤ 65535 := Nat.lt_succ_iff.mp (hb m)
    have hlt : touchSum touch m + touch m < uint32Mod := by
      have : touchSum touch m + touch m ≤ m * 65535 + 65535 :=
        Nat.add_le_add ihLe hm
      have hmle : m * 65535 + 65535 = (m + 1) * 65535 := by ring
      have : touchSum touch m + touch m ≤ (m + 1) * 65535 := hmle ▸ this
      have hcap : (m + 1) * 65535 ≤ 65535 * 65535 :=
        Nat.mul_le_mul_right 65535 hn
      unfold uint32Mod; omega
    constructor
    · rw [touchSum, Nat.mod_eq_of_lt hlt, ihEq, Finset.sum_range_succ]
    · rw [touchSum, Nat.mod_eq_of_lt hlt]
      have : touchSum touch m + touch m ≤ m * 65535 + 65535 :=
        Nat.add_le_add ihLe hm
      omega

/-- Claim C5. For every sample count `n ≥ 1` (within the `uint16_t`
parameter domain) and every sequence of 16-bit raw samples, the sensor
filter returns the integer-truncated arithmetic mean of exactly those `n`
samples, and feeding `n` identical raw values `v` returns exactly `v`. -/
theorem getSmoothedTouch_mean (touch : Nat → Nat) (hb : ∀ i, touch i < uint16Mod)
    (n : Nat) (h1 : 1 ≤ n) (h2 : n ≤ 65535) :
    getSmoothedTouch touch n = (∑ i in Finset.range n, touch i) / n ∧
      ∀ v, v < uint16Mod → getSmoothedTouch (fun _ => v) n = v := by
  have key : ∀ g : Nat → Nat, (∀ i, g i < uint16Mod) →
      getSmoothedTouch g n = (∑ i in Finset.range n, g i) / n := by
    intro g hg
    obtain ⟨hEq, hLe⟩ := touchSum_spec g hg n h2
    have hdiv : touchSum g n / n ≤ 65535 := by
      have h1' : touchSum g n / n ≤ (n * 65535) / n := Nat.div_le_div_right hLe
      have h2' : (n * 65535) / n = 65535 :=
        Nat.mul_div_cancel_left 65535 (by omega)
      omega
    unfold getSmoothedTouch
    rw [Nat.mod_eq_of_lt (by unfold uint16Mod; omega), hEq]
  refine ⟨key touch hb, fun v hv => ?_⟩
  have := key (fun _ => v) (fun _ => hv)
  rw [this, Finset.sum_const, Finset.card_range, smul_eq_mul,
    Nat.mul_div_cancel_left v (by omega)]

/-- Witness for C5 at a concrete input: four samples `[0, 1, 2, 0]` give
truncated mean `0`, and four constant samples `7` give `7`. -/
theorem getSmoothedTouch_mean_witness :
    getSmoothedTouch (fun i => i % 3) 4 = (∑ i in Finset.range 4, i % 3) / 4 ∧
      getSmoothedTouch (fun _ => 7) 4 = 7 := by
  have h := getSmoothedTouch_mean (fun i => i % 3)
    (fun i => by show i % 3 < uint16Mod; unfold uint16Mod; omega) 4 (by omega) (by omega)
  exact ⟨h.1, h.2 7 (by unfold uint16Mod; omega)⟩

/-- Claim C10. On 16-bit raw samples with `samples ≥ 1` the filter is
total: the exact mathematical sum of the samples stays strictly below
`2^32`, so the `uint32_t` accumulator — which reduces modulo `2^32` —
equals that exact sum at every length (the accumulating sum cannot
overflow), and the final division has the nonzero divisor `samples`;
yet the `uint16_t` parameter domain of the defaulted `samples`
parameter admits `0`, for which the divisor of the final division
is `0`. -/
theorem getSmoothedTouch_totality :
    (∀ touch : Nat → Nat, (∀ i, touch i < uint16Mod) →
      ∀ n, samplesParamValid n → 1 ≤ n →
        (∑ i in Finset.range n, touch i) < uint32Mod ∧
          touchSum touch n = (∑ i in Finset.range n, touch i) ∧
          smoothDivisor n ≠ 0) ∧
      (samplesParamValid 0 ∧ smoothDivisor 0 = 0) := by
  refine ⟨fun touch hb n hn h1 => ?_, by decide, rfl⟩
  have hn' : n ≤ 65535 := by
    unfold samplesParamValid uint16Mod at hn; omega
  obtain ⟨hEq, hLe⟩ := touchSum_spec touch hb n hn'
  have hsum : (∑ i in Finset.range n, touch i) ≤ n * 65535 := hEq ▸ hLe
  have hcap : n * 65535 ≤ 65535 * 65535 := Nat.mul_le_mul_right 65535 hn'
  exact ⟨by unfold uint32Mod; omega, hEq, by unfold smoothDivisor; omega⟩

/-- Witness for C10: the default call shape (`samples = 64`) on the
worst-case all-maximal sample stream — the exact sum 64 * 65535 is
below `2^32`, the accumulator computes exactly it, and the divisor is
nonzero. -/
theorem getSmoothedTouch_totality_witness :
    (∑ _i in Finset.range 64, (65535 : Nat)) < uint32Mod ∧
      touchSum (fun _ => 65535) 64 = (∑ _i in Finset.range 64, (65535 : Nat)) ∧
      smoothDivisor 64 ≠ 0 :=
  getSmoothedTouch_totality.1 (fun _ => 65535)
    (fun _ => by show (65535 : Nat) < uint16Mod; decide) 64 (by decide) (by omega)

/-! ## Persistent config store

Model of the ESP32 `Preferences` handle as the spec's Persistent Config
Store contract (section 4.2 and 6): two scalar keys in one namespace,
`capValue` (signed int, 0 = unset sentinel) and `totalPump` (unsigned
int). The `available` flag models the section 4.2 failure mode, which is
behaviour of the external collaborator, not of code under `src/`:
"if the medium is unavailable, store falls back silently to only the
in-memory default for that session (no load, no persist)" — reads return
the caller's fallback default and writes are ignored. -/
structure Store where
  available : Bool
  capValue : Option Int
  totalPump : Option Nat
deriving Repr, DecidableEq

/-- Model of `prefs.getInt(capKey, d)`: stored value, else the default. -/
def Store.getIntD (s : Store) (d : Int) : Int :=
  if s.available then s.capValue.getD d else d

/-- Model of `prefs.putInt(capKey, v)`. -/
def Store.putIntV (s : Store) (v : Int) : Store :=
  if s.available then { s with capValue := some v } else s

/-- Model of `prefs.getUInt(pumpKey, d)`. -/
def Store.getUIntD (s : Store) (d : Nat) : Nat :=
  if s.available then s.totalPump.getD d else d

/-- Model of `prefs.putUInt(pumpKey, v)`. -/
def Store.putUIntV (s : Store) (v : Nat) : Store :=
  if s.available then { s with totalPump := some v } else s

/-! ## Observable events

Each externally visible action of the sketch becomes one trace event:
`prefs.begin`/`prefs.end` scoping, the two key writes, `ledcWrite` on the
pump pin, blocking `delay(ms)`, and a serial print carrying its literal
label text and, when the source prints one, the numeric value. -/
inductive Event where
  | beginStore : Event
  | endStore : Event
  | putIntEv : Int → Event
  | putUIntEv : Nat → Event
  | pwmWrite : Nat → Event
  | delayEv : Nat → Event
  | serial : String → Option Int → Event
deriving Repr, DecidableEq

/-- Texts of the serial prints in a trace, values stripped. -/
def serialTexts (tr : List Event) : List String :=
  tr.filterMap fun e =>
    match e with
    | Event.serial t _ => some t
    | _ => none

/-- Event-trace test for a pump actuation: `ledcWrite(pumpPin, dutyCycle)`
occurred. -/
def pumped (tr : List Event) : Bool :=
  decide (Event.pwmWrite dutyCycle ∈ tr)

/-- Helper for `openAtDelay`, carrying the current store open-depth. -/
def openAtDelayAux : Nat → List Event → Bool
  | _, [] => false
  | d, Event.beginStore :: rest => openAtDelayAux (d + 1) rest
  | d, Event.endStore :: rest => openAtDelayAux (d - 1) rest
  | d, Event.delayEv _ :: rest => decide (0 < d) || openAtDelayAux d rest
  | d, _ :: rest => openAtDelayAux d rest

/-- True when some blocking `delay` in the trace elapses while the
persistent store is open (a `beginStore` without its matching
`endStore` precedes it). -/
def openAtDelay (tr : List Event) : Bool := openAtDelayAux 0 tr

/-! ## Controller state

The sketch's global mutable variables (lines 25-29) plus the persistent
store. `overflow_protect` is a C `int`; the two pump counters are
`uint32_t`; `fullCapacitiveValue` is a `uint16_t`. -/
structure CState where
  overflow_protect : Int
  fullCapacitiveValue : Nat
  totalPumpsSincePowerUp : Nat
  totalPumpsSinceCalibration : Nat
  store : Store
deriving Repr, DecidableEq

/-- Translation of `runPump(durationMs)` (lines 61-81): open the store,
drive the pump at `dutyCycle`, hold for `durationMs`, drop the pump,
increment both `uint32_t` counters, persist the calibration-epoch
counter, close the store. Returns the new state and the event trace. -/
def runPump (st : CState) (durationMs : Nat) : CState × List Event :=
  let newPower := (st.totalPumpsSincePowerUp + 1) % uint32Mod
  let newCal := (st.totalPumpsSinceCalibration + 1) % uint32Mod
  ({ st with
      totalPumpsSincePowerUp := newPower
      totalPumpsSinceCalibration := newCal
      store := st.store.putUIntV newCal },
    [Event.beginStore,
     Event.pwmWrite dutyCycle,
     Event.serial "Pump on" none,
     Event.delayEv durationMs,
     Event.pwmWrite 0,
     Event.serial "Pump off" none,
     Event.putUIntEv newCal,
     Event.endStore])

/-! ## Decision and safety loop (`loop`, lines 174-202) -/

/-- Translation of one `loop()` iteration on the filtered `reading`
(`int capacitiveValue`, a nonnegative `uint16_t` value): print the stats
block, then if the reading exceeds the threshold either run the
overflow-protect cooldown (`overflow_protect > 5`: log, sleep 30 s, reset
the counter, no actuation) or actuate the pump for the default 1000 ms
and increment the counter; finally sleep the 2 s inter-sample pause. -/
def loopIter (st : CState) (reading : Nat) : CState × List Event :=
  let stats : List Event :=
    [Event.serial "\n========== STATS ==========" none,
     Event.serial "Measured Capacitive Value: " (some (reading : Int)),
     Event.serial "Full Capacitive Value: " (some (st.fullCapacitiveValue : Int)),
     Event.serial "Pumps since power up: " (some (st.totalPumpsSincePowerUp : Int)),
     Event.serial "Pumps since last calibration: "
       (some (st.totalPumpsSinceCalibration : Int))]
  if reading > st.fullCapacitiveValue then
    if st.overflow_protect > 5 then
      ({ st with overflow_protect := 0 },
        stats ++ [Event.serial "Overflow protect" none, Event.delayEv 30000,
          Event.delayEv 2000])
    else
      let p := runPump st 1000
      ({ p.1 with overflow_protect := st.overflow_protect + 1 },
        stats ++ p.2 ++ [Event.delayEv 2000])
  else
    (st, stats ++ [Event.delayEv 2000])

/-- States after each successive `loop()` iteration on a reading list. -/
def runLoopStates (st : CState) : List Nat → List CState
  | [] => []
  | r :: rs => (loopIter st r).1 :: runLoopStates (loopIter st r).1 rs

/-- Traces of each successive `loop()` iteration on a reading list. -/
def runLoopTraces (st : CState) : List Nat → List (List Event)
  | [] => []
  | r :: rs => (loopIter st r).2 :: runLoopTraces (loopIter st r).1 rs

/-! ## Setup: persisted-state load and threshold initialisation
(lines 105-128) -/

/-- Controller state at the top of `setup()`: the global initialisers of
lines 25-29 (`overflow_protect = 0`, `fullCapacitiveValue = 45`, both
pump counters `0`) together with whatever the persistent medium holds. -/
def initialState (s : Store) : CState :=
  { overflow_protect := 0
    fullCapacitiveValue := 45
    totalPumpsSincePowerUp := 0
    totalPumpsSinceCalibration := 0
    store := s }

/-- Translation of the storage part of `setup()` (lines 105-128), applied
to the freshly initialised globals: open the store, wait 1 s, load the
calibration-epoch pump counter, close; reopen, read the threshold key
with default 0; on 0, keep the in-memory default and persist it (then
read it back for the log line); otherwise assign the loaded `int` to the
`uint16_t` global (conversion modulo `2^16`); close. -/
def setupStorePhase (s : Store) : CState × List Event :=
  let st := initialState s
  let cal := s.getUIntD 0
  let st1 := { st with totalPumpsSinceCalibration := cal }
  let pre : List Event :=
    [Event.beginStore, Event.delayEv 1000, Event.endStore,
     Event.serial "Total pumps since last calibration: " (some (cal : Int)),
     Event.beginStore]
  let v := s.getIntD 0
  if v = 0 then
    let s2 := s.putIntV (st.fullCapacitiveValue : Int)
    ({ st1 with store := s2 },
      pre ++
        [Event.serial "No custom capacitive value set, setting default." none,
         Event.putIntEv (st.fullCapacitiveValue : Int),
         Event.serial "Stored default value: " (some (s2.getIntD 0)),
         Event.endStore])
  else
    ({ st1 with fullCapacitiveValue := (v % (uint16Mod : Int)).toNat },
      pre ++
        [Event.serial "Loaded calibrated capacitive value: "
           (some ((v % (uint16Mod : Int)).toNat : Int)),
         Event.endStore])

/-! ## Calibration commit (lines 151-166)

The tail of the calibration branch, after the interactive pump loop has
been exited: settle 2 s, take the final smoothed reading, add the +1
margin (assigned to the `uint16_t` global, hence modulo `2^16`), log the
change, then in one store scope persist the new threshold, zero the
calibration-epoch counter and persist it. `prefCal` is the
`prefCalibrationValue` read earlier in `setup()`, used only in the log
line. -/
def calibCommit (st : CState) (prefCal : Int) (finalReading : Nat) :
    CState × List Event :=
  let newFull := (finalReading + 1) % uint16Mod
  let s2 := (st.store.putIntV (newFull : Int)).putUIntV 0
  ({ st with
      fullCapacitiveValue := newFull
      totalPumpsSinceCalibration := 0
      store := s2 },
    [Event.delayEv 2000,
     Event.serial "Updated capacitive from " (some prefCal),
     Event.serial " to " (some (newFull : Int)),
     Event.beginStore,
     Event.putIntEv (newFull : Int),
     Event.putUIntEv 0,
     Event.endStore,
     Event.serial "Pump counter reset to 0" none])

/-! ## Claim C1: overflow-protect protocol and the spec scenario -/

/-- Store contents used by the spec scenario (calibrated threshold 45,
counter 0, medium available). -/
def scenarioStore : Store :=
  { available := true, capValue := some 45, totalPump := some 0 }

/-- Controller state at the start of the spec scenario: threshold 45,
overflow counter 0. -/
def scenarioState : CState := initialState scenarioStore

/-- Per-iteration filtered readings of the spec scenario. -/
def scenarioReadings : List Nat := [10, 50, 50, 50, 50, 50, 50, 50]

/-- Claim C1. Any iteration over threshold with overflow counter at most
5 actuates the pump and increments the counter; any iteration over
threshold with counter above 5 performs no actuation, pauses 30 s, and
resets the counter to 0 (so after 6 consecutive over-threshold
actuations from 0 the 7th over-threshold iteration cools down and the
8th actuates normally). On the spec scenario (threshold 45, readings
[10, 50, 50, 50, 50, 50, 50, 50], overflow starting at 0), iterations
2-7 actuate with overflow counter 1..6 and iteration 8 triggers the
cooldown: no actuation, a 30 s pause, counter reset to 0. -/
theorem loop_overflow_protocol :
    (∀ st r, r > st.fullCapacitiveValue → st.overflow_protect ≤ 5 →
      pumped (loopIter st r).2 = true ∧
        (loopIter st r).1.overflow_protect = st.overflow_protect + 1) ∧
      (∀ st r, r > st.fullCapacitiveValue → st.overflow_protect > 5 →
        pumped (loopIter st r).2 = false ∧
          Event.delayEv 30000 ∈ (loopIter st r).2 ∧
          (loopIter st r).1.overflow_protect = 0) ∧
      (runLoopTraces scenarioState scenarioReadings).map pumped =
        [false, true, true, true, true, true, true, false] ∧
      (runLoopStates scenarioState scenarioReadings).map CState.overflow_protect =
        [0, 1, 2, 3, 4, 5, 6, 0] ∧
      Event.delayEv 30000 ∈
        List.getD (runLoopTraces scenarioState scenarioReadings) 7 [] := by
  refine ⟨fun st r h1 h2 => ?_, fun st r h1 h2 => ?_, by decide, by decide, by decide⟩
  · unfold loopIter
    rw [if_pos h1, if_neg (by omega)]
    refine ⟨?_, rfl⟩
    simp [pumped, runPump]
  · unfold loopIter
    rw [if_pos h1, if_pos h2]
    refine ⟨?_, by simp, rfl⟩
    simp [pumped, dutyCycle]

/-- Witness for C1: the two quantified protocol facts applied at
concrete inputs — an over-threshold iteration at overflow count 0
actuates and moves the counter to 1, and one at overflow count 6 does
not actuate and resets the counter to 0. -/
theorem loop_overflow_protocol_witness :
    (pumped (loopIter scenarioState 50).2 = true ∧
      (loopIter scenarioState 50).1.overflow_protect = 0 + 1) ∧
      (pumped (loopIter { scenarioState with overflow_protect := 6 } 50).2 = false ∧
        Event.delayEv 30000 ∈ (loopIter { scenarioState with overflow_protect := 6 } 50).2 ∧
        (loopIter { scenarioState with overflow_protect := 6 } 50).1.overflow_protect = 0) :=
  ⟨loop_overflow_protocol.1 scenarioState 50 (by decide) (by decide),
    loop_overflow_protocol.2.1 { scenarioState with overflow_protect := 6 } 50
      (by decide) (by decide)⟩

/-- Claim C3. With the medium available: when the threshold key is
absent or reads exactly 0, initialisation ends with the default 45 both
in use and persisted; when it holds `V ≠ 0` (a value in the `uint16_t`
range, the only values this sketch ever writes), exactly `V` is adopted,
the store is left unchanged and no threshold write is issued; and no
decision-loop iteration ever writes the threshold key. -/
theorem setup_threshold_init :
    (∀ s : Store, s.available = true →
      (s.capValue = none ∨ s.capValue = some 0) →
        (setupStorePhase s).1.fullCapacitiveValue = 45 ∧
          (setupStorePhase s).1.store.capValue = some 45) ∧
      (∀ s : Store, s.available = true → ∀ V : Int, s.capValue = some V →
        V ≠ 0 → 0 ≤ V → V < 65536 →
          (setupStorePhase s).1.fullCapacitiveValue = V.toNat ∧
            (setupStorePhase s).1.store = s ∧
            ∀ w, Event.putIntEv w ∉ (setupStorePhase s).2) ∧
      (∀ st r, (loopIter st r).1.store.capValue = st.store.capValue) := by
  refine ⟨fun s hA hcap => ?_, fun s hA V hV hne h0 hlt => ?_, fun st r => ?_⟩
  · have hv : s.getIntD 0 = 0 := by
      rcases hcap with h | h <;> simp [Store.getIntD, hA, h]
    simp [setupStorePhase, initialState, Store.putIntV, hv, hA]
  · have hv : s.getIntD 0 = V := by simp [Store.getIntD, hA, hV]
    have hmod : V % ((uint16Mod : Nat) : Int) = V := by
      apply Int.emod_eq_of_lt h0
      unfold uint16Mod; exact_mod_cast hlt
    refine ⟨?_, ?_, fun w => ?_⟩
    · simp [setupStorePhase, initialState, hv, hne, hmod]
    · simp [setupStorePhase, initialState, hv, hne]
    · simp [setupStorePhase, initialState, hv, hne]
  · unfold loopIter
    by_cases h1 : r > st.fullCapacitiveValue
    · rw [if_pos h1]
      by_cases h2 : st.overflow_protect > 5
      · rw [if_pos h2]
      · rw [if_neg h2]
        simp only [runPump, Store.putUIntV]
        by_cases h3 : st.store.available <;> simp [h3]
    · rw [if_neg h1]

/-- Witness for C3: an empty available store ends with 45 in use and
persisted, and a store holding 30 adopts exactly 30 without writing. -/
theorem setup_threshold_init_witness :
    ((setupStorePhase { available := true, capValue := none, totalPump := none }).1.fullCapacitiveValue = 45 ∧
      (setupStorePhase { available := true, capValue := none, totalPump := none }).1.store.capValue = some 45) ∧
      ((setupStorePhase { available := true, capValue := some 30, totalPump := some 0 }).1.fullCapacitiveValue = (30 : Int).toNat ∧
        (setupStorePhase { available := true, capValue := some 30, totalPump := some 0 }).1.store =
          { available := true, capValue := some 30, totalPump := some 0 } ∧
        ∀ w, Event.putIntEv w ∉
          (setupStorePhase { available := true, capValue := some 30, totalPump := some 0 }).2) :=
  ⟨setup_threshold_init.1 { available := true, capValue := none, totalPump := none }
      rfl (Or.inl rfl),
    setup_threshold_init.2.1 { available := true, capValue := some 30, totalPump := some 0 }
      rfl 30 rfl (by decide) (by decide) (by decide)⟩

/-- Claim C4. With the store available and the `uint32_t` counters below
their wrap point, `runPump` increments both pump counters by exactly 1
and leaves the persisted calibration-epoch counter equal to its
in-memory value. -/
theorem runPump_counters (st : CState) (d : Nat)
    (hA : st.store.available = true)
    (h1 : st.totalPumpsSincePowerUp + 1 < uint32Mod)
    (h2 : st.totalPumpsSinceCalibration + 1 < uint32Mod) :
    (runPump st d).1.totalPumpsSincePowerUp = st.totalPumpsSincePowerUp + 1 ∧
      (runPump st d).1.totalPumpsSinceCalibration = st.totalPumpsSinceCalibration + 1 ∧
      (runPump st d).1.store.totalPump =
        some (runPump st d).1.totalPumpsSinceCalibration := by
  simp [runPump, Store.putUIntV, hA, Nat.mod_eq_of_lt h1, Nat.mod_eq_of_lt h2]

/-- Witness for C4 at the scenario start state: one actuation takes both
counters from 0 to 1 and persists 1. -/
theorem runPump_counters_witness :
    (runPump scenarioState 1000).1.totalPumpsSincePowerUp = 0 + 1 ∧
      (runPump scenarioState 1000).1.totalPumpsSinceCalibration = 0 + 1 ∧
      (runPump scenarioState 1000).1.store.totalPump =
        some (runPump scenarioState 1000).1.totalPumpsSinceCalibration :=
  runPump_counters scenarioState 1000 rfl (by decide) (by decide)

/-! ## Claim C7: when the overflow counter is actually reset -/

/-- Controller state with three consecutive actuations on record, used
to exercise an iteration whose reading does not exceed the threshold. -/
def wetState : CState := { initialState scenarioStore with overflow_protect := 3 }

/-- Counterexample to C7: at overflow counter 3 and threshold 45, an
iteration with reading 10 (not over threshold) leaves the counter at 3 —
it is not reset to 0 as the claim states. -/
theorem overflow_not_reset_when_wet :
    (loopIter wetState 10).1.overflow_protect = 3 ∧
      ¬ (loopIter wetState 10).1.overflow_protect = 0 := by decide

/-- Claim C7 as amended. The overflow-protect counter is reset to 0
exactly when the cool-down path fires; an iteration whose reading does
not exceed the threshold leaves the counter unchanged (there is no
implicit reset on a dry-enough reading). -/
theorem overflow_reset_only_on_cooldown :
    (∀ st r, r > st.fullCapacitiveValue → st.overflow_protect > 5 →
      (loopIter st r).1.overflow_protect = 0) ∧
      (∀ st r, ¬ r > st.fullCapacitiveValue →
        (loopIter st r).1.overflow_protect = st.overflow_protect) := by
  constructor
  · intro st r h1 h2
    unfold loopIter
    rw [if_pos h1, if_pos h2]
  · intro st r h1
    unfold loopIter
    rw [if_neg h1]

/-- Witness for the amended C7: the cooldown at counter 6 resets to 0,
and a dry reading at counter 3 leaves the counter at 3. -/
theorem overflow_reset_only_on_cooldown_witness :
    (loopIter { wetState with overflow_protect := 6 } 50).1.overflow_protect = 0 ∧
      (loopIter wetState 20).1.overflow_protect = wetState.overflow_protect :=
  ⟨overflow_reset_only_on_cooldown.1 { wetState with overflow_protect := 6 } 50
      (by decide) (by decide),
    overflow_reset_only_on_cooldown.2 wetState 20 (by decide)⟩

/-! ## Claim C8: the store is held open across the pump-hold delay -/

/-- Counterexample to C8: in `runPump` the persistent store is opened
before the pump is driven, so the pump-hold delay elapses while the
store is open. -/
theorem runPump_store_open_during_delay :
    openAtDelay (runPump (initialState scenarioStore) 1000).2 = true := by decide

/-- Claim C8 as amended. For every state and hold duration, `runPump`
opens the persistent store first and closes it last: its trace is
begin, pump on, hold delay, pump off, counter write, end — so the store
is open while the pump-hold delay elapses. -/
theorem runPump_holds_store_open (st : CState) (d : Nat) :
    (runPump st d).2 =
      [Event.beginStore, Event.pwmWrite dutyCycle, Event.serial "Pump on" none,
       Event.delayEv d, Event.pwmWrite 0, Event.serial "Pump off" none,
       Event.putUIntEv ((st.totalPumpsSinceCalibration + 1) % uint32Mod),
       Event.endStore] ∧
      openAtDelay (runPump st d).2 = true := by
  refine ⟨rfl, ?_⟩
  simp [runPump, openAtDelay, openAtDelayAux]

/-! ## Claims C2 and C6: the calibration commit -/

/-- State with arbitrary-looking prior persisted threshold and counter,
used to exercise the calibration commit at the wrap-around reading. -/
def calibPriorState : CState :=
  { overflow_protect := 0
    fullCapacitiveValue := 45
    totalPumpsSincePowerUp := 2
    totalPumpsSinceCalibration := 41
    store := { available := true, capValue := some 30, totalPump := some 41 } }

/-- Counterexample to C2: with the final smoothed reading 65535 (the
maximal `uint16_t` value) the `uint16_t` assignment wraps, and the
calibration commit persists threshold 0 instead of final reading + 1
= 65536. -/
theorem calibCommit_not_final_plus_one :
    (calibCommit calibPriorState 30 65535).1.store.capValue = some 0 ∧
      ¬ (calibCommit calibPriorState 30 65535).1.store.capValue =
        some ((65535 : Int) + 1) := by decide

/-- Claim C2 as amended. For every prior persisted threshold and pump
counter (any state with the medium available), a completed calibration
commit persists pump counter exactly 0 and threshold
(final smoothed reading + 1) mod 2^16 — equal to final + 1 whenever the
final reading is at most 65534 — and its trace performs both writes
inside one begin/end store scope. -/
theorem calibCommit_persists (st : CState) (prefCal : Int) (r : Nat)
    (hA : st.store.available = true) :
    (calibCommit st prefCal r).1.store.totalPump = some 0 ∧
      (calibCommit st prefCal r).1.store.capValue =
        some (((r + 1) % uint16Mod : Nat) : Int) ∧
      (r ≤ 65534 → (calibCommit st prefCal r).1.store.capValue =
        some ((r : Int) + 1)) ∧
      (calibCommit st prefCal r).2 =
        [Event.delayEv 2000,
         Event.serial "Updated capacitive from " (some prefCal),
         Event.serial " to " (some (((r + 1) % uint16Mod : Nat) : Int)),
         Event.beginStore,
         Event.putIntEv (((r + 1) % uint16Mod : Nat) : Int),
         Event.putUIntEv 0,
         Event.endStore,
         Event.serial "Pump counter reset to 0" none] := by
  refine ⟨?_, ?_, fun hr => ?_, rfl⟩
  · simp [calibCommit, Store.putIntV, Store.putUIntV, hA]
  · simp [calibCommit, Store.putIntV, Store.putUIntV, hA]
  · have hmod : (r + 1) % uint16Mod = r + 1 :=
      Nat.mod_eq_of_lt (by unfold uint16Mod; omega)
    simp [calibCommit, Store.putIntV, Store.putUIntV, hA, hmod]

/-- Witness for the amended C2 at prior threshold 30 and prior counter
41 with final reading 57: the commit persists counter 0 and threshold
58 in a single store scope. -/
theorem calibCommit_persists_witness :
    (calibCommit calibPriorState 30 57).1.store.totalPump = some 0 ∧
      (calibCommit calibPriorState 30 57).1.store.capValue =
        some (((57 + 1) % uint16Mod : Nat) : Int) ∧
      ((57 : Nat) ≤ 65534 → (calibCommit calibPriorState 30 57).1.store.capValue =
        some ((57 : Int) + 1)) ∧
      (calibCommit calibPriorState 30 57).2 =
        [Event.delayEv 2000,
         Event.serial "Updated capacitive from " (some 30),
         Event.serial " to " (some (((57 + 1) % uint16Mod : Nat) : Int)),
         Event.beginStore,
         Event.putIntEv (((57 + 1) % uint16Mod : Nat) : Int),
         Event.putUIntEv 0,
         Event.endStore,
         Event.serial "Pump counter reset to 0" none] :=
  calibCommit_persists calibPriorState 30 57 rfl

/-- Claim C6, evaluated at its failing input. At the final smoothed
reading 65535 the calibration commit leaves the in-use threshold at 0
and persists 0 — the reserved "unset" sentinel — violating the spec
invariant that the threshold is always strictly greater than 0. -/
theorem calibCommit_threshold_wraps_to_zero :
    (calibCommit (initialState scenarioStore) 45 65535).1.fullCapacitiveValue = 0 ∧
      (calibCommit (initialState scenarioStore) 45 65535).1.store.capValue =
        some 0 := by decide

/-! ## Claim C9: behaviour when the persistent medium is unavailable -/

/-- A store whose medium failed to open; its contents are unreachable. -/
def unavailableStore : Store :=
  { available := false, capValue := some 7, totalPump := some 3 }

/-- An available store on first boot: both keys absent. -/
def emptyAvailableStore : Store :=
  { available := true, capValue := none, totalPump := none }

/-- Trace of a degraded session: setup with the medium unavailable
followed by one over-threshold loop iteration (reading 50 against the
default threshold 45), which actuates the pump. -/
def degradedSession : List Event :=
  (setupStorePhase unavailableStore).2 ++
    (loopIter (setupStorePhase unavailableStore).1 50).2

/-- Counterexample to C9: with the medium unavailable, setup prints
exactly the same log-line texts as a first boot with a working store
(so no degraded-mode warning is ever logged), and one pump actuation
later the session has already attempted to open the store three times
(so the store is re-attempted mid-session). -/
theorem storage_failure_silent_and_reopened :
    serialTexts (setupStorePhase unavailableStore).2 =
      serialTexts (setupStorePhase emptyAvailableStore).2 ∧
      degradedSession.count Event.beginStore = 3 ∧
      1 < degradedSession.count Event.beginStore := by decide

/-- Claim C9 as amended. If the store fails to open, the system does
continue with the in-memory defaults for the session (threshold 45,
counter 0, nothing loaded, nothing persisted) and completes setup
without crashing; but it logs no degraded-mode warning — its log-line
texts are those of a normal first boot — and it re-attempts to open the
store in every later storage scope, e.g. on the next pump actuation. -/
theorem storage_failure_fallback (s : Store) (hA : s.available = false) :
    (setupStorePhase s).1.fullCapacitiveValue = 45 ∧
      (setupStorePhase s).1.totalPumpsSinceCalibration = 0 ∧
      (setupStorePhase s).1.store = s ∧
      serialTexts (setupStorePhase s).2 =
        serialTexts (setupStorePhase emptyAvailableStore).2 ∧
      Event.beginStore ∈ (runPump (setupStorePhase s).1 1000).2 := by
  have hv : s.getIntD 0 = 0 := by simp [Store.getIntD, hA]
  have hu : s.getUIntD 0 = 0 := by simp [Store.getUIntD, hA]
  have hput : s.putIntV 45 = s := by simp [Store.putIntV, hA]
  refine ⟨?_, ?_, ?_, ?_, ?_⟩
  · simp [setupStorePhase, initialState, hv, hput]
  · simp [setupStorePhase, initialState, hv, hu, hput]
  · simp [setupStorePhase, initialState, hv, hput]
  · have hRHS : serialTexts (setupStorePhase emptyAvailableStore).2 =
        ["Total pumps since last calibration: ",
         "No custom capacitive value set, setting default.",
         "Stored default value: "] := rfl
    rw [hRHS]
    simp [setupStorePhase, initialState, hv, hput, serialTexts]
  · simp [setupStorePhase, initialState, hv, hu, hput, runPump]

/-- Witness for the amended C9 at a concrete unavailable store. -/
theorem storage_failure_fallback_witness :
    (setupStorePhase unavailableStore).1.fullCapacitiveValue = 45 ∧
      (setupStorePhase unavailableStore).1.totalPumpsSinceCalibration = 0 ∧
      (setupStorePhase unavailableStore).1.store = unavailableStore ∧
      serialTexts (setupStorePhase unavailableStore).2 =
        serialTexts (setupStorePhase emptyAvailableStore).2 ∧
      Event.beginStore ∈ (runPump (setupStorePhase unavailableStore).1 1000).2 :=
  storage_failure_fallback unavailableStore rfl
